import Mathlib

/-!
Verification of the ATM web simulator (`src/app.py`).

Shallow embedding: Python floats are modelled as exact rationals (ℚ); the
Flask session dict becomes a `Session` structure (the optional `new_pin`
key becomes an `Option String`); the transaction file becomes a
`List TransactionRecord` carried in `AtmState`.  Each `/api/...` handler
becomes a pure function from request data and state to (response, state).
Wall-clock timestamps are passed in as an opaque string argument.
-/

namespace ATMSim

/-- Configuration constants from `app.py`. -/
def DEFAULT_PIN : String := "1234"

def ADMIN_PASSWORD : String := "4321"

def STARTING_BALANCE : ℚ := 123.45

/-- Value of a list of decimal digit characters, most significant first. -/
def digitsToNat (l : List Char) : Nat :=
  l.foldl (fun a c => 10 * a + (c.toNat - Char.toNat '0')) 0

/-- Strip leading and trailing whitespace, as Python `float` does before
parsing. -/
def trimChars (l : List Char) : List Char :=
  ((l.dropWhile Char.isWhitespace).reverse.dropWhile Char.isWhitespace).reverse

/-- Syntactic part of Python `float(amount_str)` on plain numeric literals:
optional sign, integer digits, optional fractional part, optional decimal
exponent, surrounding whitespace stripped.  Returns the mantissa `m` and
decimal exponent `e` of the exact value `m * 10 ^ e`, or `none` on a
malformed string (modelling the raised `ValueError`).  `inf`/`nan` literals
and digit-group underscores are out of scope of this model. -/
def parseFloatRep (s : String) : Option (ℤ × ℤ) :=
  let l := trimChars s.toList
  let sign : Bool × List Char :=
    match l with
    | '+' :: r => (false, r)
    | '-' :: r => (true, r)
    | _ => (false, l)
  let ipRest := sign.2.span Char.isDigit
  let fpRest : List Char × List Char :=
    match ipRest.2 with
    | '.' :: r => r.span Char.isDigit
    | _ => ([], ipRest.2)
  if ipRest.1.isEmpty && fpRest.1.isEmpty then none
  else
    let mant : ℤ := (digitsToNat (ipRest.1 ++ fpRest.1) : ℤ)
    let m : ℤ := if sign.1 then -mant else mant
    match fpRest.2 with
    | [] => some (m, -(fpRest.1.length : ℤ))
    | c :: r =>
      if c == 'e' || c == 'E' then
        let esign : Bool × List Char :=
          match r with
          | '+' :: r2 => (false, r2)
          | '-' :: r2 => (true, r2)
          | _ => (false, r)
        let edRest := esign.2.span Char.isDigit
        if edRest.1.isEmpty || !edRest.2.isEmpty then none
        else
          let e : ℤ := if esign.1 then -(digitsToNat edRest.1 : ℤ) else (digitsToNat edRest.1 : ℤ)
          some (m, e - (fpRest.1.length : ℤ))
      else none

/-- Model of Python `float(amount_str)`: the exact rational value of the
parsed literal. -/
def parseFloat (s : String) : Option ℚ :=
  (parseFloatRep s).map fun p => (p.1 : ℚ) * (10 : ℚ) ^ p.2

/-- Render a non-negative rational with two decimal places (round half up),
modelling Python `f"{x:.2f}"` for the amounts this program handles.
`(200 * num + den) / (2 * den)` is `⌊100 * q + 1 / 2⌋` for `q ≥ 0`. -/
def fmt2 (q : ℚ) : String :=
  let n : ℤ := (200 * q.num + (q.den : ℤ)) / (2 * (q.den : ℤ))
  let pence : ℤ := n % 100
  toString (n / 100) ++ "." ++ (if pence < 10 then "0" else "") ++ toString pence

/-- Result of `validate_withdrawal`: Python returns `(False, message)` or
`(True, amount)`. -/
inductive VResult where
  | invalid (message : String)
  | valid (amount : ℤ)
deriving DecidableEq, Repr

/-- `validate_withdrawal(amount_str, balance)` from `app.py`.  The Python
`try` block only fails with `ValueError` when `float(amount_str)` does, so
the `except` arm is the parse-failure branch.  `amount != int(amount)` (with
truncating `int`) says the value is not an integer, i.e. its denominator is
not 1; after that `int(amount)` is the numerator. -/
def validate_withdrawal (amount_str : String) (balance : ℚ) : VResult :=
  match parseFloat amount_str with
  | none => .invalid "Please enter a valid number."
  | some amount =>
    if amount ≤ 0 then .invalid "Amount must be greater than £0."
    else if amount.den ≠ 1 then .invalid "Please enter a whole number (e.g., 10, 20, 30)."
    else
      let a : ℤ := amount.num
      if a % 10 ≠ 0 then .invalid "Please enter an amount in multiples of £10."
      else if (a : ℚ) > balance then
        .invalid ("Insufficient funds. Your balance is £" ++ fmt2 balance)
      else .valid a

/-- A record in `data/transactions.json`, as built by `add_transaction`.
The Python field `type` is rendered `tx_type` (`type` clashes with Lean). -/
structure TransactionRecord where
  timestamp : String
  tx_type : String
  amount : ℤ
  balance_after : ℚ
  formatted : String
deriving DecidableEq, Repr

/-- `add_transaction(amount, balance_after)`: appends one record (with the
default `transaction_type="withdrawal"`, whose `.title()` is `"Withdrawal"`)
and returns it.  `now` stands for `datetime.now().strftime(...)`. -/
def add_transaction (now : String) (amount : ℤ) (balance_after : ℚ)
    (transactions : List TransactionRecord) : TransactionRecord × List TransactionRecord :=
  let t : TransactionRecord :=
    { timestamp := now
      tx_type := "withdrawal"
      amount := amount
      balance_after := balance_after
      formatted := now ++ " | Withdrawal £" ++ fmt2 (amount : ℚ) ++ " | Balance £"
        ++ fmt2 balance_after }
  (t, transactions ++ [t])

/-- The Flask session after `initialize_session` has filled the defaults.
`new_pin` is an optional key (`session.get('new_pin')`), hence `Option`. -/
structure Session where
  pin : String
  balance : ℚ
  logged_in : Bool
  is_admin : Bool
  pin_change_step : ℕ
  new_pin : Option String
deriving DecidableEq, Repr

/-- Fresh session as produced by `initialize_session` on an empty session. -/
def initialSession : Session :=
  { pin := DEFAULT_PIN
    balance := STARTING_BALANCE
    logged_in := false
    is_admin := false
    pin_change_step := 0
    new_pin := none }

/-- Whole program state: the session plus the transaction file contents. -/
structure AtmState where
  sess : Session
  ledger : List TransactionRecord
deriving DecidableEq, Repr

/-- Response of `POST /api/login`. -/
inductive LoginResp where
  | adminOk (message : String)
  | customerOk (message : String) (transaction_count : ℕ) (balance : ℚ)
  | failed (message : String)
deriving DecidableEq, Repr

/-- `api_login` from `app.py`. -/
def api_login (pin_attempt : String) (st : AtmState) : LoginResp × AtmState :=
  if pin_attempt = ADMIN_PASSWORD then
    (.adminOk "Admin login successful!",
      { st with sess := { st.sess with logged_in := true, is_admin := true } })
  else if pin_attempt = st.sess.pin then
    (.customerOk "Login successful!" st.ledger.length st.sess.balance,
      { st with sess := { st.sess with logged_in := true, is_admin := false } })
  else
    (.failed "Incorrect PIN or password. Please try again.", st)

/-- Response of `GET /api/balance`; `notAuthorized` is the 401 rejection. -/
inductive BalanceResp where
  | notAuthorized
  | ok (balance : ℚ)
deriving DecidableEq, Repr

/-- `api_balance` from `app.py` (a pure read, no state change). -/
def api_balance (st : AtmState) : BalanceResp :=
  if !st.sess.logged_in || st.sess.is_admin then .notAuthorized
  else .ok st.sess.balance

/-- Response of `POST /api/withdraw`. -/
inductive WithdrawResp where
  | notAuthorized
  | failed (message : String)
  | ok (message : String) (balance : ℚ) (transaction : TransactionRecord)
deriving DecidableEq, Repr

/-- `api_withdraw` from `app.py`. -/
def api_withdraw (now : String) (amount_str : String) (st : AtmState) :
    WithdrawResp × AtmState :=
  if !st.sess.logged_in || st.sess.is_admin then (.notAuthorized, st)
  else
    match validate_withdrawal amount_str st.sess.balance with
    | .invalid msg => (.failed msg, st)
    | .valid amount =>
      let newBal : ℚ := st.sess.balance - (amount : ℚ)
      let tl := add_transaction now amount newBal st.ledger
      (.ok ("Success! £" ++ fmt2 (amount : ℚ) ++ " withdrawn.") newBal tl.1,
        { sess := { st.sess with balance := newBal }, ledger := tl.2 })

/-- Response of `POST /api/change-pin`.  Step-0/1 failures carry no `step`
field; the step-2 mismatch failure does.  `noResponse` models the handler
falling off the end (Python returns `None`) for a step outside 0..2. -/
inductive PinResp where
  | notAuthorized
  | ok (step : ℕ) (message : String) (complete : Bool)
  | failedMsg (message : String)
  | failedStep (step : ℕ) (message : String)
  | noResponse
deriving DecidableEq, Repr

/-- `api_change_pin` from `app.py`.  In the step-2 branch Python compares
`pin_input == session.get('new_pin')`; an absent key gives `None`, which
never equals a string, so that case takes the mismatch branch — exactly
`st.sess.new_pin = some pin_input`. -/
def api_change_pin (pin_input : String) (st : AtmState) : PinResp × AtmState :=
  if !st.sess.logged_in || st.sess.is_admin then (.notAuthorized, st)
  else
    match st.sess.pin_change_step with
    | 0 =>
      if pin_input = st.sess.pin then
        (.ok 1 "Current PIN verified. Enter new PIN." false,
          { st with sess := { st.sess with pin_change_step := 1 } })
      else (.failedMsg "Incorrect current PIN.", st)
    | 1 =>
      if pin_input.length = 4 && pin_input.toList.all Char.isDigit then
        (.ok 2 "New PIN entered. Please confirm." false,
          { st with sess := { st.sess with new_pin := some pin_input, pin_change_step := 2 } })
      else (.failedMsg "PIN must be exactly 4 digits.", st)
    | 2 =>
      if st.sess.new_pin = some pin_input then
        (.ok 0 "PIN changed successfully!" true,
          { st with sess :=
            { st.sess with pin := pin_input, pin_change_step := 0, new_pin := none } })
      else
        (.failedStep 1 "PINs do not match. Enter new PIN again.",
          { st with sess := { st.sess with pin_change_step := 1 } })
    | _ => (.noResponse, st)

/-- `api_logout`: `session.clear()` followed by the re-seeding that
`initialize_session` performs on the next request; observationally the
session is back to its defaults.  The transaction file is untouched. -/
def api_logout (st : AtmState) : (Bool × String) × AtmState :=
  ((true, "Thank you for using Secure Bank ATM!"), { st with sess := initialSession })

/-- `api_reset_pin_change` from `app.py`: unconditionally zero the step and
pop `new_pin`. -/
def api_reset_pin_change (st : AtmState) : Bool × AtmState :=
  (true, { st with sess := { st.sess with pin_change_step := 0, new_pin := none } })

/-- One client request, for the reachability relation. -/
inductive Op where
  | login (pin : String)
  | withdraw (now : String) (amount : String)
  | changePin (pin : String)
  | logout
  | reset
deriving DecidableEq, Repr

/-- State reached after serving one request (the response is discarded). -/
def applyOp : Op → AtmState → AtmState
  | .login p, st => (api_login p st).2
  | .withdraw now a, st => (api_withdraw now a st).2
  | .changePin p, st => (api_change_pin p st).2
  | .logout, st => (api_logout st).2
  | .reset, st => (api_reset_pin_change st).2

/-- States reachable from a fresh session and empty transaction file by any
sequence of requests. -/
inductive Reachable : AtmState → Prop where
  | init : Reachable ⟨initialSession, []⟩
  | step (op : Op) (st : AtmState) : Reachable st → Reachable (applyOp op st)

/-! Helper lemmas for evaluating the parser on concrete strings. -/

theorem parseFloat_of_rep (s : String) (m e : ℤ) (h : parseFloatRep s = some (m, e)) :
    parseFloat s = some ((m : ℚ) * (10 : ℚ) ^ e) := by
  simp [parseFloat, h]

theorem parseFloat_of_rep_none (s : String) (h : parseFloatRep s = none) :
    parseFloat s = none := by
  simp [parseFloat, h]

/-- A logged-in customer session with a round balance, for concrete checks. -/
def custState : AtmState :=
  { sess := { pin := "1234", balance := 120, logged_in := true, is_admin := false,
              pin_change_step := 0, new_pin := none }, ledger := [] }

/-- A logged-in admin session, for concrete checks. -/
def adminState : AtmState :=
  { sess := { pin := "1234", balance := 120, logged_in := true, is_admin := true,
              pin_change_step := 0, new_pin := none }, ledger := [] }

/-- A customer session mid PIN change, awaiting confirmation of "5678". -/
def confirmState : AtmState :=
  { sess := { pin := "1234", balance := 120, logged_in := true, is_admin := false,
              pin_change_step := 2, new_pin := some "5678" }, ledger := [] }

/-- C1: a successful withdrawal of amount `a` from a logged-in non-admin
session with balance `b` leaves balance `b - a`, appends exactly one
transaction record whose `balance_after` is the new balance, and the
response carries the updated balance and that record. -/
theorem C1_withdraw_success (now s : String) (st : AtmState) (a : ℤ)
    (hl : st.sess.logged_in = true) (ha : st.sess.is_admin = false)
    (hv : validate_withdrawal s st.sess.balance = .valid a) :
    ∃ t : TransactionRecord,
      (api_withdraw now s st).2.sess.balance = st.sess.balance - (a : ℚ) ∧
      (api_withdraw now s st).2.ledger = st.ledger ++ [t] ∧
      t.balance_after = st.sess.balance - (a : ℚ) ∧
      (api_withdraw now s st).1 =
        .ok ("Success! £" ++ fmt2 (a : ℚ) ++ " withdrawn.")
          (st.sess.balance - (a : ℚ)) t := by
  refine ⟨(add_transaction now a (st.sess.balance - (a : ℚ)) st.ledger).1, ?_, ?_, ?_, ?_⟩ <;>
    simp [api_withdraw, hl, ha, hv, add_transaction]

theorem C1_witness :
    ∃ t : TransactionRecord,
      (api_withdraw "2025-01-01 00:00:00" "50" custState).2.sess.balance =
          custState.sess.balance - ((50 : ℤ) : ℚ) ∧
      (api_withdraw "2025-01-01 00:00:00" "50" custState).2.ledger =
          custState.ledger ++ [t] ∧
      t.balance_after = custState.sess.balance - ((50 : ℤ) : ℚ) ∧
      (api_withdraw "2025-01-01 00:00:00" "50" custState).1 =
        .ok ("Success! £" ++ fmt2 ((50 : ℤ) : ℚ) ++ " withdrawn.")
          (custState.sess.balance - ((50 : ℤ) : ℚ)) t := by
  have hp : parseFloat "50" = some 50 := by
    rw [parseFloat_of_rep "50" 50 0 (by decide)]; norm_num
  exact C1_withdraw_success "2025-01-01 00:00:00" "50" custState 50 rfl rfl
    (by unfold validate_withdrawal; rw [hp]; decide)

/-- C6: a withdrawal from a logged-in non-admin session whose amount fails
validation returns failure with the validation message and leaves the whole
state — in particular the balance and the ledger — unchanged. -/
theorem C6_validation_failure (now s : String) (st : AtmState) (msg : String)
    (hl : st.sess.logged_in = true) (ha : st.sess.is_admin = false)
    (hv : validate_withdrawal s st.sess.balance = .invalid msg) :
    api_withdraw now s st = (.failed msg, st) := by
  simp [api_withdraw, hl, ha, hv]

theorem C6_witness :
    api_withdraw "2025-01-01 00:00:00" "15" custState =
      (.failed "Please enter an amount in multiples of £10.", custState) := by
  have hp : parseFloat "15" = some 15 := by
    rw [parseFloat_of_rep "15" 15 0 (by decide)]; norm_num
  exact C6_validation_failure "2025-01-01 00:00:00" "15" custState _ rfl rfl
    (by unfold validate_withdrawal; rw [hp]; decide)

/-- C7: in any admin session the balance query and the withdrawal both fail
as not authorized (the 401 rejection) and change nothing; and logging in
with the admin password does put the session in that admin state. -/
theorem C7_admin_never_withdraws (now s : String) (st : AtmState)
    (ha : st.sess.is_admin = true) :
    api_balance st = .notAuthorized ∧
    api_withdraw now s st = (.notAuthorized, st) ∧
    ((api_login ADMIN_PASSWORD st).2).sess.is_admin = true := by
  refine ⟨?_, ?_, ?_⟩ <;> simp [api_balance, api_withdraw, api_login, ha]

theorem C7_witness :
    api_balance adminState = .notAuthorized ∧
    api_withdraw "2025-01-01 00:00:00" "50" adminState = (.notAuthorized, adminState) ∧
    ((api_login ADMIN_PASSWORD adminState).2).sess.is_admin = true :=
  C7_admin_never_withdraws "2025-01-01 00:00:00" "50" adminState rfl

/-- C8: a login attempt matching neither the admin password nor the session
PIN returns the one generic failure message (the same constant in both
cases) and leaves the session — in particular `logged_in` and `is_admin` —
unchanged. -/
theorem C8_login_failure (p : String) (st : AtmState)
    (h1 : p ≠ ADMIN_PASSWORD) (h2 : p ≠ st.sess.pin) :
    api_login p st = (.failed "Incorrect PIN or password. Please try again.", st) := by
  simp [api_login, h1, h2]

theorem C8_witness :
    api_login "0000" ⟨initialSession, []⟩ =
      (.failed "Incorrect PIN or password. Please try again.", ⟨initialSession, []⟩) :=
  C8_login_failure "0000" ⟨initialSession, []⟩ (by decide) (by decide)

/-- C9: the reset operation, in any state whatsoever, zeroes the PIN-change
step, removes `new_pin`, reports success, and touches nothing else. -/
theorem C9_reset_unconditional (st : AtmState) :
    (api_reset_pin_change st).1 = true ∧
    (api_reset_pin_change st).2.sess.pin_change_step = 0 ∧
    (api_reset_pin_change st).2.sess.new_pin = none ∧
    (api_reset_pin_change st).2.sess.pin = st.sess.pin ∧
    (api_reset_pin_change st).2.sess.balance = st.sess.balance ∧
    (api_reset_pin_change st).2.sess.logged_in = st.sess.logged_in ∧
    (api_reset_pin_change st).2.sess.is_admin = st.sess.is_admin ∧
    (api_reset_pin_change st).2.ledger = st.ledger := by
  refine ⟨rfl, rfl, rfl, rfl, rfl, rfl, rfl, rfl⟩

/-- C2: withdrawal validation applies its checks in a fixed order with the
first failure winning — unparseable; then nonpositive; then not an integer
value; then not a multiple of 10; then exceeding the balance, whose message
carries the balance rendered to two decimals. -/
theorem C2_validation_order (s : String) (b : ℚ) :
    (parseFloat s = none →
      validate_withdrawal s b = .invalid "Please enter a valid number.") ∧
    (∀ q : ℚ, parseFloat s = some q → q ≤ 0 →
      validate_withdrawal s b = .invalid "Amount must be greater than £0.") ∧
    (∀ q : ℚ, parseFloat s = some q → 0 < q → q.den ≠ 1 →
      validate_withdrawal s b = .invalid "Please enter a whole number (e.g., 10, 20, 30).") ∧
    (∀ q : ℚ, parseFloat s = some q → 0 < q → q.den = 1 → q.num % 10 ≠ 0 →
      validate_withdrawal s b = .invalid "Please enter an amount in multiples of £10.") ∧
    (∀ q : ℚ, parseFloat s = some q → 0 < q → q.den = 1 → q.num % 10 = 0 →
      b < (q.num : ℚ) →
      validate_withdrawal s b = .invalid ("Insufficient funds. Your balance is £" ++ fmt2 b)) := by
  refine ⟨?_, ?_, ?_, ?_, ?_⟩
  · intro h; simp [validate_withdrawal, h]
  · intro q hq hle; simp [validate_withdrawal, hq, hle]
  · intro q hq h0 hden; simp [validate_withdrawal, hq, not_le.mpr h0, hden]
  · intro q hq h0 hden hmod
    simp [validate_withdrawal, hq, not_le.mpr h0, hden, hmod]
  · intro q hq h0 hden hmod hgt
    simp [validate_withdrawal, hq, not_le.mpr h0, hden, hmod, hgt]

theorem C2_witness :
    validate_withdrawal "abc" 120 = .invalid "Please enter a valid number." ∧
    validate_withdrawal "-50" 120 = .invalid "Amount must be greater than £0." ∧
    validate_withdrawal "2.5" 120 = .invalid "Please enter a whole number (e.g., 10, 20, 30)." ∧
    validate_withdrawal "15" 120 = .invalid "Please enter an amount in multiples of £10." ∧
    validate_withdrawal "130" 120 =
      .invalid ("Insufficient funds. Your balance is £" ++ fmt2 120) := by
  have h1 : parseFloat "abc" = none := parseFloat_of_rep_none "abc" (by decide)
  have h2 : parseFloat "-50" = some (-50) := by
    rw [parseFloat_of_rep "-50" (-50) 0 (by decide)]; norm_num
  have h3 : parseFloat "2.5" = some (⟨5, 2, by decide, by decide⟩ : ℚ) := by
    rw [parseFloat_of_rep "2.5" 25 (-1) (by decide), Rat.mk'_eq_divInt, Rat.divInt_eq_div]
    norm_num
  have h4 : parseFloat "15" = some 15 := by
    rw [parseFloat_of_rep "15" 15 0 (by decide)]; norm_num
  have h5 : parseFloat "130" = some 130 := by
    rw [parseFloat_of_rep "130" 130 0 (by decide)]; norm_num
  refine ⟨(C2_validation_order "abc" 120).1 h1,
    (C2_validation_order "-50" 120).2.1 (-50) h2 (by norm_num),
    (C2_validation_order "2.5" 120).2.2.1 _ h3 (by decide) (by decide),
    (C2_validation_order "15" 120).2.2.2.1 15 h4 (by decide) (by decide) (by decide),
    (C2_validation_order "130" 120).2.2.2.2 130 h5 (by decide) (by decide) (by decide)
      (by decide)⟩

/-- C3 as the spec states it is false on the code: after a mismatched
confirmation at step 2 the handler returns to step 1 but leaves `new_pin`
set — here still "5678" — instead of clearing it. -/
theorem C3_counterexample :
    (api_change_pin "9999" confirmState).1 =
        .failedStep 1 "PINs do not match. Enter new PIN again." ∧
    (api_change_pin "9999" confirmState).2.sess.pin_change_step = 1 ∧
    (api_change_pin "9999" confirmState).2.sess.new_pin = some "5678" :=
  ⟨rfl, rfl, rfl⟩

/-- C3 (amended): at step 2 with a mismatched confirmation the operation
fails with "PINs do not match" and the next step is 1 (awaiting a new PIN),
but `new_pin` is left unchanged rather than cleared. -/
theorem C3_confirm_mismatch (p : String) (st : AtmState)
    (hl : st.sess.logged_in = true) (ha : st.sess.is_admin = false)
    (hs : st.sess.pin_change_step = 2) (hm : st.sess.new_pin ≠ some p) :
    api_change_pin p st =
      (.failedStep 1 "PINs do not match. Enter new PIN again.",
        { st with sess := { st.sess with pin_change_step := 1 } }) := by
  obtain ⟨⟨pin, bal, li, ad, step, np⟩, led⟩ := st
  simp only at hl ha hs hm
  subst hl ha hs
  simp [api_change_pin, hm]

theorem C3_witness :
    api_change_pin "9999" confirmState =
      (.failedStep 1 "PINs do not match. Enter new PIN again.",
        { confirmState with sess := { confirmState.sess with pin_change_step := 1 } }) :=
  C3_confirm_mismatch "9999" confirmState rfl rfl rfl (by decide)

/-- C5: at step 2 with a confirmation equal to `new_pin`, the session PIN
becomes that value, the flow returns to step 0 with `new_pin` cleared, the
response reports success with `complete = true`, and a subsequent login with
the new PIN (not the admin password) succeeds as a customer. -/
theorem C5_confirm_match (p : String) (st : AtmState)
    (hl : st.sess.logged_in = true) (ha : st.sess.is_admin = false)
    (hs : st.sess.pin_change_step = 2) (hm : st.sess.new_pin = some p)
    (hadm : p ≠ ADMIN_PASSWORD) :
    (api_change_pin p st).1 = .ok 0 "PIN changed successfully!" true ∧
    (api_change_pin p st).2.sess.pin = p ∧
    (api_change_pin p st).2.sess.pin_change_step = 0 ∧
    (api_change_pin p st).2.sess.new_pin = none ∧
    (api_login p (api_change_pin p st).2).1 =
      .customerOk "Login successful!" (api_change_pin p st).2.ledger.length
        (api_change_pin p st).2.sess.balance ∧
    (api_login p (api_change_pin p st).2).2.sess.logged_in = true ∧
    (api_login p (api_change_pin p st).2).2.sess.is_admin = false := by
  obtain ⟨⟨pin, bal, li, ad, step, np⟩, led⟩ := st
  simp only at hl ha hs hm
  subst hl ha hs hm
  simp [api_change_pin, api_login, hadm]

theorem C5_witness :
    (api_change_pin "5678" confirmState).1 = .ok 0 "PIN changed successfully!" true ∧
    (api_change_pin "5678" confirmState).2.sess.pin = "5678" ∧
    (api_change_pin "5678" confirmState).2.sess.pin_change_step = 0 ∧
    (api_change_pin "5678" confirmState).2.sess.new_pin = none ∧
    (api_login "5678" (api_change_pin "5678" confirmState).2).1 =
      .customerOk "Login successful!" (api_change_pin "5678" confirmState).2.ledger.length
        (api_change_pin "5678" confirmState).2.sess.balance ∧
    (api_login "5678" (api_change_pin "5678" confirmState).2).2.sess.logged_in = true ∧
    (api_login "5678" (api_change_pin "5678" confirmState).2).2.sess.is_admin = false :=
  C5_confirm_match "5678" confirmState rfl rfl rfl rfl (by decide)

/-- C10: any string accepted by Python float parsing whose value is a
positive integer multiple of 10 within the balance — e.g. "50.0" or "5e1" —
passes validation with the integer value of that float, and the withdrawal
then succeeds with that amount. -/
theorem C10_float_parsing (now s : String) (st : AtmState) (q : ℚ)
    (hl : st.sess.logged_in = true) (ha : st.sess.is_admin = false)
    (hp : parseFloat s = some q) (h0 : 0 < q) (hden : q.den = 1)
    (hmod : q.num % 10 = 0) (hle : (q.num : ℚ) ≤ st.sess.balance) :
    validate_withdrawal s st.sess.balance = .valid q.num ∧
    (api_withdraw now s st).2.sess.balance = st.sess.balance - (q.num : ℚ) ∧
    ∃ t : TransactionRecord,
      (api_withdraw now s st).1 =
        .ok ("Success! £" ++ fmt2 (q.num : ℚ) ++ " withdrawn.")
          (st.sess.balance - (q.num : ℚ)) t := by
  have hv : validate_withdrawal s st.sess.balance = .valid q.num := by
    simp [validate_withdrawal, hp, not_le.mpr h0, hden, hmod, not_lt.mpr hle]
  refine ⟨hv, ?_, ⟨(add_transaction now q.num (st.sess.balance - (q.num : ℚ)) st.ledger).1, ?_⟩⟩ <;>
    simp [api_withdraw, hl, ha, hv, add_transaction]

theorem C10_witness :
    (validate_withdrawal "50.0" custState.sess.balance = .valid (50 : ℚ).num ∧
      (api_withdraw "2025-01-01 00:00:00" "50.0" custState).2.sess.balance =
        custState.sess.balance - ((50 : ℚ).num : ℚ) ∧
      ∃ t : TransactionRecord,
        (api_withdraw "2025-01-01 00:00:00" "50.0" custState).1 =
          .ok ("Success! £" ++ fmt2 ((50 : ℚ).num : ℚ) ++ " withdrawn.")
            (custState.sess.balance - ((50 : ℚ).num : ℚ)) t) ∧
    (validate_withdrawal "5e1" custState.sess.balance = .valid (50 : ℚ).num ∧
      (api_withdraw "2025-01-01 00:00:00" "5e1" custState).2.sess.balance =
        custState.sess.balance - ((50 : ℚ).num : ℚ) ∧
      ∃ t : TransactionRecord,
        (api_withdraw "2025-01-01 00:00:00" "5e1" custState).1 =
          .ok ("Success! £" ++ fmt2 ((50 : ℚ).num : ℚ) ++ " withdrawn.")
            (custState.sess.balance - ((50 : ℚ).num : ℚ)) t) := by
  have hpa : parseFloat "50.0" = some 50 := by
    rw [parseFloat_of_rep "50.0" 500 (-1) (by decide)]; norm_num
  have hpb : parseFloat "5e1" = some 50 := by
    rw [parseFloat_of_rep "5e1" 5 1 (by decide)]; norm_num
  exact ⟨C10_float_parsing "2025-01-01 00:00:00" "50.0" custState 50 rfl rfl hpa
      (by decide) (by decide) (by decide) (by decide),
    C10_float_parsing "2025-01-01 00:00:00" "5e1" custState 50 rfl rfl hpb
      (by decide) (by decide) (by decide) (by decide)⟩

/-- The state after a customer logs in and verifies the current PIN: the
first PIN-change step has been taken, so `pin_change_step = 1`, but
`new_pin` has not been stored yet. -/
def c4state : AtmState :=
  applyOp (.changePin "1234") (applyOp (.login "1234") ⟨initialSession, []⟩)

/-- C4 as the spec states it is false on the code: the reachable state right
after the step-0 → step-1 transition has `pin_change_step ≠ 0` while
`new_pin` is still absent, so `new_pin` is not present whenever the step is
nonzero. -/
theorem C4_counterexample :
    Reachable c4state ∧ c4state.sess.pin_change_step ≠ 0 ∧ c4state.sess.new_pin = none :=
  ⟨Reachable.step _ _ (Reachable.step _ _ Reachable.init), by decide, rfl⟩

/-- C4 (amended): in every reachable state, if `new_pin` is present then
`pin_change_step` is nonzero — equivalently, at step 0 (Idle) `new_pin` is
always absent.  Only this direction of the claimed equivalence holds. -/
theorem C4_pending_only_outside_idle (st : AtmState) (h : Reachable st) :
    st.sess.pin_change_step = 0 → st.sess.new_pin = none := by
  induction h with
  | init => intro _; rfl
  | step op st' h' ih =>
    obtain ⟨⟨pin, bal, li, ad, step, np⟩, led⟩ := st'
    simp only at ih
    cases op with
    | login p =>
      simp only [applyOp, api_login]
      split_ifs <;> simpa using ih
    | withdraw now a =>
      simp only [applyOp, api_withdraw]
      split_ifs with hauth
      · simpa using ih
      · cases hv : validate_withdrawal a bal with
        | invalid msg => simpa [hv] using ih
        | valid amt => simpa [hv, add_transaction] using ih
    | changePin p =>
      simp only [applyOp, api_change_pin]
      cases step with
      | zero => split_ifs <;> simp_all
      | succ k =>
        cases k with
        | zero => split_ifs <;> simp_all
        | succ k2 =>
          cases k2 with
          | zero => split_ifs <;> simp_all
          | succ k3 => split_ifs <;> simp
    | logout =>
      intro _; rfl
    | reset =>
      intro _; rfl

theorem C4_witness : (⟨initialSession, []⟩ : AtmState).sess.new_pin = none :=
  C4_pending_only_outside_idle ⟨initialSession, []⟩ Reachable.init rfl

end ATMSim
